import Mathlib

/-!
Verification of the mmwave-calibrate signal-processing core (`src/calibrate.py`)
against its natural-language specification.

The embedding models numpy values exactly:
* complex samples are pairs of rationals (`Cq`); numpy's float arithmetic is
  modelled by exact rational arithmetic.  Division by a complex zero, which in
  numpy produces non-finite values (NaN/Inf), is modelled by the junk value 0
  (the rational-field convention `x / 0 = 0`); every statement about such a
  division is made only through the `Cq.div` function itself, never by
  pretending the quotient is meaningful.
* `np.argmax` / `np.max` on a complex axis use numpy's lexicographic order on
  (real part, imaginary part) and return the first occurrence of the maximum;
  on an empty axis they raise `ValueError`, modelled by an error result.
* Python's `int()` on a float truncates toward zero (`qtrunc`).
* Python/numpy basic slicing `a[lo:hi]` clamps negative and out-of-range
  bounds (`pySlice`).
* `np.fromfile(..., dtype=np.int16, count=-1)` decodes consecutive
  little-endian byte pairs and silently drops a trailing incomplete element
  (`fromfileInt16`); `reshape` fails unless the element count matches exactly.

The discrete Fourier transform of `np.fft.fft` (line 68 of the source) only
manufactures the complex range profile that the calibration then consumes; no
claim concerns its values, so the waveform-calibration core takes the range
profile (one complex spectrum per antenna pair) as an input, exactly as the
code consumes `rfft` after line 69.
-/

set_option autoImplicit false

namespace MmwaveCalibrate

/-- A complex sample with exact rational components.  Models one element of a
numpy `complex128` array (float rounding abstracted away, as the spec's §5
floating-point-tolerance language allows). -/
structure Cq where
  re : ℚ
  im : ℚ
  deriving DecidableEq, Repr

instance : Zero Cq := ⟨⟨0, 0⟩⟩

instance : One Cq := ⟨⟨1, 0⟩⟩

/-- Squared magnitude of a complex sample. -/
def Cq.normSq (z : Cq) : ℚ := z.re * z.re + z.im * z.im

/-- Magnitude |z| of a complex sample (spec-side notion only: the source never
computes a magnitude). -/
noncomputable def Cq.mag (z : Cq) : ℝ := Real.sqrt ((z.normSq : ℚ) : ℝ)

/-- Complex division as numpy computes `z / w` (for a nonzero denominator this
is exact complex division; a zero denominator, which makes numpy emit
non-finite values, yields the junk value 0 here via `ℚ`'s `x / 0 = 0`). -/
def Cq.div (z w : Cq) : Cq :=
  ⟨(z.re * w.re + z.im * w.im) / w.normSq, (z.im * w.re - z.re * w.im) / w.normSq⟩

/-- numpy's strict order on complex values, used by `np.max` / `np.argmax` on
a complex dtype: lexicographic on (real part, imaginary part). -/
def Cq.nlt (a b : Cq) : Prop :=
  a.re < b.re ∨ (a.re = b.re ∧ a.im < b.im)

instance Cq.instDecidableNlt (a b : Cq) : Decidable (a.nlt b) :=
  inferInstanceAs (Decidable (a.re < b.re ∨ (a.re = b.re ∧ a.im < b.im)))

/-- `np.argmax` paired with `np.max` over a one-dimensional complex slice:
`none` on an empty slice (numpy raises `ValueError`), otherwise the index of
the first occurrence of the maximum under `Cq.nlt`, together with that
maximum value. -/
def npArgmax : List Cq → Option (ℕ × Cq)
  | [] => none
  | v :: rest =>
    match npArgmax rest with
    | none => some (0, v)
    | some (i, m) => if Cq.nlt v m then some (i + 1, m) else some (0, v)

/-- Python/numpy basic slicing `l[a:b]` (step 1): negative bounds count from
the end of the axis, bounds are clamped into `[0, length]`, and the result is
empty when the clamped stop does not exceed the clamped start. -/
def pySlice {α : Type} (l : List α) (a b : ℤ) : List α :=
  let n : ℤ := l.length
  let start : ℕ := (if a < 0 then a + n else min a n).toNat
  let stop : ℕ := (if b < 0 then b + n else min b n).toNat
  (l.drop start).take (stop - start)

/-- Python's `int()` applied to a rational value: truncation toward zero. -/
def qtrunc (q : ℚ) : ℤ := if q < 0 then -⌊-q⌋ else ⌊q⌋

/-- Decoding of one little-endian signed 16-bit sample from two bytes, as
`np.fromfile(..., dtype=np.int16)` reads it. -/
def int16OfBytes (b0 b1 : ℕ) : ℤ :=
  let u : ℕ := b0 % 256 + 256 * (b1 % 256)
  if u < 32768 then (u : ℤ) else (u : ℤ) - 65536

/-- `np.fromfile(filename, dtype=np.int16, count=-1)`: every consecutive byte
pair becomes one element; a trailing incomplete element (odd byte count) is
silently dropped. -/
def fromfileInt16 : List ℕ → List ℤ
  | b0 :: b1 :: rest => int16OfBytes b0 b1 :: fromfileInt16 rest
  | _ => []

/-- `.reshape(ntx, nrx, nc, ns, 2)` on the flat element list: succeeds (the
data itself is unchanged, only reinterpreted in C order) iff the element count
is exactly `ntx * nrx * nc * ns * 2`; otherwise numpy raises `ValueError`
(the spec's FormatError), modelled by `none`. -/
def reshape5 (ntx nrx nc ns : ℕ) (l : List ℤ) : Option (List ℤ) :=
  if l.length = ntx * nrx * nc * ns * 2 then some l else none

/-- The shared frame-loading step of `coupling_calibration` (source lines
25-27) and `waveform_calibration` (source lines 63-65): read int16 elements
from the byte buffer and reshape them to (ntx, nrx, nc, ns, 2). -/
def loadFrame (bytes : List ℕ) (ntx nrx nc ns : ℕ) : Option (List ℤ) :=
  reshape5 ntx nrx nc ns (fromfileInt16 bytes)

/-- Element `frame[t, r, c, s, comp]` of the reshaped 5-D array, via C-order
(row-major) index arithmetic on the flat element list. -/
def frameGet (nrx nc ns : ℕ) (l : List ℤ) (t r c s comp : ℕ) : ℤ :=
  l.getD ((((t * nrx + r) * nc + c) * ns + s) * 2 + comp) 0

/-- `coupling_calibration` (source lines 11-29): load the frame and take
`np.mean(frame, axis=(2, 3))`, the per-(tx, rx) mean over the chirp and sample
axes, separately for each I/Q component; result indexed as (t, r, comp). -/
def coupling_calibration (bytes : List ℕ) (ntx nrx nc ns : ℕ) :
    Option (ℕ → ℕ → ℕ → ℚ) :=
  (loadFrame bytes ntx nrx nc ns).map fun l t r comp =>
    (∑ c ∈ Finset.range nc, ∑ s ∈ Finset.range ns,
      ((frameGet nrx nc ns l t r c s comp : ℚ))) / ((nc : ℚ) * (ns : ℚ))

/-- The calibration configuration record read from the JSON file (source
lines 42-48); the two analog parameters keep their JSON field names and
units (MHz/µs and ksps). -/
structure Config where
  ntx : ℕ
  nrx : ℕ
  numChirpLoops : ℕ
  numAdcSamples : ℕ
  frequencySlope_Mhz_us : ℚ
  adcSamplingFrequency_ksps : ℚ
  deriving Repr

/-- Speed of light in m/s (source line 51). -/
def speedOfLight : ℚ := 299792458

/-- Frequency slope converted to Hz/s (source line 47). -/
def fslope (cfg : Config) : ℚ := cfg.frequencySlope_Mhz_us * 10 ^ 12

/-- Sampling frequency converted to Hz (source line 48). -/
def fsample (cfg : Config) : ℚ := cfg.adcSamplingFrequency_ksps * 10 ^ 3

/-- Max unambiguous range (source line 53). -/
def rmax (cfg : Config) : ℚ := fsample cfg * speedOfLight / (2 * fslope cfg)

/-- Range resolution (source line 54). -/
def rres (cfg : Config) : ℚ := rmax cfg / (cfg.numAdcSamples : ℚ)

/-- The reference window bounds `ref_bins` (source line 61):
`int((ref - 1) / rres), int((ref + 1) / rres)`, with Python's `int()`
truncating toward zero.  No bounds check is performed. -/
def ref_bins (cfg : Config) (ref : ℚ) : ℤ × ℤ :=
  (qtrunc ((ref - 1) / rres cfg), qtrunc ((ref + 1) / rres cfg))

/-- Peak search over one already-sliced window, as `np.argmax` / `np.max`
perform it; the `(0, 0)` default is never reached on a nonempty window. -/
def peakSearch (w : List Cq) : ℕ × Cq := (npArgmax w).getD (0, 0)

/-- The window `rfft[t, r, lo:hi]` of one antenna pair's range spectrum
(source lines 71-72). -/
def wf_window (cfg : Config) (ref : ℚ) (spectrum : List Cq) : List Cq :=
  pySlice spectrum (ref_bins cfg ref).1 (ref_bins cfg ref).2

/-- `peaks_idx[t, r]` (source line 71): `np.argmax` over the sliced window —
a window-relative index. -/
def peaks_idx (cfg : Config) (ref : ℚ) (rfft : ℕ → ℕ → List Cq) (t r : ℕ) : ℕ :=
  (peakSearch (wf_window cfg ref (rfft t r))).1

/-- `peaks[t, r]` (source line 72): `np.max` over the sliced window. -/
def peaks (cfg : Config) (ref : ℚ) (rfft : ℕ → ℕ → List Cq) (t r : ℕ) : Cq :=
  (peakSearch (wf_window cfg ref (rfft t r))).2

/-- The phase/amplitude calibration entry `peaks[0, 0] / peaks[t, r]`
(source lines 75-78); the source stores the real and imaginary parts in the
two trailing components of a (ntx, nrx, 2) float array, modelled here by the
`Cq` pair itself. -/
def phase_calib (cfg : Config) (ref : ℚ) (rfft : ℕ → ℕ → List Cq) (t r : ℕ) : Cq :=
  Cq.div (peaks cfg ref rfft 0 0) (peaks cfg ref rfft t r)

/-- The rational coefficient of the frequency calibration entry (source lines
81-82 without the transcendental factor `2 * np.pi`):
`(peaks_idx[t, r] - peaks_idx[0, 0]) / ref * (fsample / fslope)`. -/
def freq_calib_coeff (cfg : Config) (ref : ℚ) (rfft : ℕ → ℕ → List Cq) (t r : ℕ) : ℚ :=
  (((peaks_idx cfg ref rfft t r : ℤ) - (peaks_idx cfg ref rfft 0 0 : ℤ) : ℤ) : ℚ)
    / ref * (fsample cfg / fslope cfg)

/-- The frequency calibration entry exactly as line 82 computes it:
`2 * np.pi * (dpeak_idx / ref) * (fsample / fslope)`. -/
noncomputable def freq_calib (cfg : Config) (ref : ℚ) (rfft : ℕ → ℕ → List Cq)
    (t r : ℕ) : ℝ :=
  2 * Real.pi * ((freq_calib_coeff cfg ref rfft t r : ℚ) : ℝ)

/-- The only failure the source's calibration core can produce past loading:
`np.argmax` / `np.max` raise `ValueError` when the sliced reduction axis is
empty.  The source has no ConfigError or CalibrationError path. -/
inductive CalibError where
  | emptyReduction
  deriving DecidableEq, Repr

/-- The waveform-calibration core (source lines 47-84) applied to the range
profile `rfft` (one length-`numAdcSamples` spectrum per antenna pair, the
result of source lines 63-69): compute the reference window, slice every
spectrum with it, take per-pair `argmax`/`max`, and form the phase/amplitude
matrix and the frequency-calibration coefficient matrix.  The slice bounds
act on the sample axis of length `numAdcSamples`, so the reduction fails iff
the clamped slice of that axis is empty; no window-bounds or zero-peak check
exists. -/
def waveform_calibration (cfg : Config) (ref : ℚ) (rfft : ℕ → ℕ → List Cq) :
    Except CalibError ((ℕ → ℕ → ℚ) × (ℕ → ℕ → Cq)) :=
  if (pySlice (List.range cfg.numAdcSamples) (ref_bins cfg ref).1
      (ref_bins cfg ref).2).isEmpty then
    .error CalibError.emptyReduction
  else
    .ok (freq_calib_coeff cfg ref rfft, phase_calib cfg ref rfft)

/-- Frequency-calibration coefficient recomputed from absolute bin indices
(window start plus window-relative argmax result), the comparison point of
claim C10: the `(ref_bins).1` shift appears on both selected indices. -/
def freq_calib_coeff_abs (cfg : Config) (ref : ℚ) (rfft : ℕ → ℕ → List Cq)
    (t r : ℕ) : ℚ :=
  (((((ref_bins cfg ref).1 + (peaks_idx cfg ref rfft t r : ℤ)) -
      ((ref_bins cfg ref).1 + (peaks_idx cfg ref rfft 0 0 : ℤ)) : ℤ)) : ℚ)
    / ref * (fsample cfg / fslope cfg)

/-- Range resolution as the spec states it for claim C5:
`(sampling_frequency · c / (2 · frequency_slope)) / nsample`, with the
configured fields converted from ksps and MHz/µs. -/
def resolutionSpec (cfg : Config) : ℚ :=
  cfg.adcSamplingFrequency_ksps * 10 ^ 3 * 299792458
    / (2 * (cfg.frequencySlope_Mhz_us * 10 ^ 12)) / (cfg.numAdcSamples : ℚ)

/-- The reference-window bounds claim C5 states: floor of the shifted
reference distance over the resolution. -/
def refWindowFloorSpec (cfg : Config) (ref : ℚ) : ℤ × ℤ :=
  (⌊(ref - 1) / resolutionSpec cfg⌋, ⌊(ref + 1) / resolutionSpec cfg⌋)

/-- The reference-window bounds with the floor corrected to Python's `int()`
truncation toward zero (the amended form of claim C5). -/
def refWindowTruncSpec (cfg : Config) (ref : ℚ) : ℤ × ℤ :=
  (qtrunc ((ref - 1) / resolutionSpec cfg), qtrunc ((ref + 1) / resolutionSpec cfg))

/-- Claim C1 as stated: for a non-empty reference window [lo, hi), the
selected index of each antenna pair is an absolute sample index lying in
[lo, hi) that maximizes the magnitude of the range profile over the window,
and the selected peak is the profile value at that index. -/
def PeakClaimC1 : Prop :=
  ∀ (cfg : Config) (ref : ℚ) (rfft : ℕ → ℕ → List Cq) (t r : ℕ),
    (ref_bins cfg ref).1 < (ref_bins cfg ref).2 →
    ((ref_bins cfg ref).1 ≤ (peaks_idx cfg ref rfft t r : ℤ) ∧
     (peaks_idx cfg ref rfft t r : ℤ) < (ref_bins cfg ref).2 ∧
     (∀ k : ℤ, (ref_bins cfg ref).1 ≤ k → k < (ref_bins cfg ref).2 →
       Cq.mag ((rfft t r).getD k.toNat 0) ≤
         Cq.mag ((rfft t r).getD (peaks_idx cfg ref rfft t r) 0)) ∧
     peaks cfg ref rfft t r = (rfft t r).getD (peaks_idx cfg ref rfft t r) 0)

/-- Claim C2 as stated: an exactly-zero peak at a non-reference antenna pair
makes the waveform calibration fail instead of returning matrices. -/
def ZeroPeakClaimC2 : Prop :=
  ∀ (cfg : Config) (ref : ℚ) (rfft : ℕ → ℕ → List Cq) (t r : ℕ),
    t < cfg.ntx → r < cfg.nrx → ¬(t = 0 ∧ r = 0) →
    peaks cfg ref rfft t r = 0 →
    (waveform_calibration cfg ref rfft).isOk = false

/-- Claim C3 as stated: unless `0 ≤ lo < hi ≤ nsample`, the computation
fails (the spec's ConfigError) instead of proceeding with the out-of-bounds
window. -/
def WindowBoundsClaimC3 : Prop :=
  ∀ (cfg : Config) (ref : ℚ) (rfft : ℕ → ℕ → List Cq),
    ¬(0 ≤ (ref_bins cfg ref).1 ∧ (ref_bins cfg ref).1 < (ref_bins cfg ref).2 ∧
      (ref_bins cfg ref).2 ≤ (cfg.numAdcSamples : ℤ)) →
    (waveform_calibration cfg ref rfft).isOk = false

/-- Claim C4 as stated: frame loading succeeds iff the byte buffer holds
exactly `ntx · nrx · nchirp · nsample · 2` two-byte elements; any other byte
length fails. -/
def BufferLengthClaimC4 : Prop :=
  ∀ (ntx nrx nc ns : ℕ) (bytes : List ℕ),
    0 < ntx → 0 < nrx → 0 < nc → 0 < ns →
    ((loadFrame bytes ntx nrx nc ns).isSome = true ↔
      bytes.length = ntx * nrx * nc * ns * 2 * 2)

/-- Claim C5 as stated: for positive slope, sampling frequency and nsample,
the window bounds are the floors of `(ref ∓ 1) / resolution`. -/
def WindowFloorClaimC5 : Prop :=
  ∀ (cfg : Config) (ref : ℚ),
    0 < cfg.frequencySlope_Mhz_us → 0 < cfg.adcSamplingFrequency_ksps →
    0 < cfg.numAdcSamples →
    ref_bins cfg ref = refWindowFloorSpec cfg ref

/-- Claim C7 as stated: whenever the waveform calibration returns matrices,
the reference antenna's phase/amplitude entry is exactly (1, 0) and its
frequency entry is exactly 0. -/
def ReferenceEntryClaimC7 : Prop :=
  ∀ (cfg : Config) (ref : ℚ) (rfft : ℕ → ℕ → List Cq)
    (out : (ℕ → ℕ → ℚ) × (ℕ → ℕ → Cq)),
    waveform_calibration cfg ref rfft = .ok out →
    out.2 0 0 = (⟨1, 0⟩ : Cq) ∧ freq_calib cfg ref rfft 0 0 = 0

/-- Claim C9 as stated: a negative computed low window bound never makes the
waveform calibration fail; a result is always returned. -/
def NegativeWindowClaimC9 : Prop :=
  ∀ (cfg : Config) (ref : ℚ) (rfft : ℕ → ℕ → List Cq),
    (ref - 1) / rres cfg < 0 →
    (waveform_calibration cfg ref rfft).isOk = true

/-! Concrete configurations and range profiles for witnesses and
counterexamples.  All use frequencySlope_Mhz_us = 1 (hence fslope = 10^12
Hz/s) and an adcSamplingFrequency_ksps chosen so that the range resolution
comes out to a handy rational value. -/

/-- ntx = 1, nrx = 2, nsample = 4; sampling frequency chosen so rmax = 4 m
and rres = 1 m; with ref = 2 m the window is [1, 3). -/
def cfgSmall : Config := ⟨1, 2, 1, 4, 1, 8000000000 / 299792458⟩

/-- nsample = 1; sampling frequency chosen so rres = 2 m, putting
`(ref - 1) / rres` strictly between -1 and 0 for ref = 1/2 m. -/
def cfgRes2 : Config := ⟨1, 1, 1, 1, 1, 4000000000 / 299792458⟩

/-- nsample = 4; sampling frequency chosen so rres = 2/5 m; with ref = 3/2 m
the window is [1, 6), exceeding the sample axis. -/
def cfgWide : Config := ⟨1, 1, 1, 4, 1, 3200000000 / 299792458⟩

/-- nsample = 8; sampling frequency chosen so rres = 1/2 m; with ref = 1/4 m
the window is [-1, 2), whose Python slice of the axis is empty. -/
def cfgNegLow : Config := ⟨1, 1, 1, 8, 1, 8000000000 / 299792458⟩

/-- nsample = 4; sampling frequency chosen so rres = 1/4 m; with ref = 1/2 m
the window is [-2, 6), whose Python slice of the axis is the nonempty tail
[2, 4) of the sample axis. -/
def cfgWrap : Config := ⟨1, 1, 1, 4, 1, 2000000000 / 299792458⟩

/-- A range profile whose rx-0 spectrum has its lexicographic maximum ⟨2, 0⟩
at absolute bin 1 and whose rx-1 spectrum is identically zero. -/
def profileStep : ℕ → ℕ → List Cq := fun _ r =>
  if r = 0 then [⟨0, 0⟩, ⟨2, 0⟩, ⟨1, 0⟩, ⟨0, 0⟩]
  else [⟨0, 0⟩, ⟨0, 0⟩, ⟨0, 0⟩, ⟨0, 0⟩]

/-- A strictly descending real-valued spectrum: the value of largest
magnitude inside the window [1, 3) sits at absolute bin 1. -/
def profileDesc : ℕ → ℕ → List Cq := fun _ _ => [⟨5, 0⟩, ⟨3, 0⟩, ⟨1, 0⟩, ⟨0, 0⟩]

/-- The all-zero length-4 range profile. -/
def profileZero : ℕ → ℕ → List Cq := fun _ _ => [⟨0, 0⟩, ⟨0, 0⟩, ⟨0, 0⟩, ⟨0, 0⟩]

/-- The all-ones length-4 range profile. -/
def profileOnes4 : ℕ → ℕ → List Cq := fun _ _ => [⟨1, 0⟩, ⟨1, 0⟩, ⟨1, 0⟩, ⟨1, 0⟩]

/-- The all-ones length-8 range profile. -/
def profileOnes8 : ℕ → ℕ → List Cq := fun _ _ => List.replicate 8 ⟨1, 0⟩

/-- A length-4 profile with a nonzero complex peak ⟨2, 1⟩ in the window
[1, 3). -/
def profilePeak : ℕ → ℕ → List Cq := fun _ _ => [⟨0, 0⟩, ⟨2, 1⟩, ⟨1, 0⟩, ⟨0, 0⟩]

/-- The spec's §8 hand-computed coupling frame (ntx = nrx = 1, nchirp =
nsample = 2): I samples 1, 2, 3, 4 and Q samples 10, 20, 30, 40, serialized
as little-endian int16 pairs with I, Q interleaved innermost. -/
def couplingBytes : List ℕ :=
  [1, 0, 10, 0, 2, 0, 20, 0, 3, 0, 30, 0, 4, 0, 40, 0]

/-- The coupling matrix `coupling_calibration` produces on `couplingBytes`,
written out for the witness below. -/
def couplingF : ℕ → ℕ → ℕ → ℚ := fun t r comp =>
  (∑ c ∈ Finset.range 2, ∑ s ∈ Finset.range 2,
    ((frameGet 1 2 2 (fromfileInt16 couplingBytes) t r c s comp : ℚ)))
    / (((2 : ℕ) : ℚ) * ((2 : ℕ) : ℚ))

end MmwaveCalibrate

namespace MmwaveCalibrate

theorem Cq.nlt_irrefl (a : Cq) : ¬ a.nlt a := by
  rintro (h | ⟨-, h⟩) <;> exact lt_irrefl _ h

theorem Cq.nlt_trans {a b c : Cq} (hab : a.nlt b) (hbc : b.nlt c) : a.nlt c := by
  rcases hab with h1 | ⟨e1, h1⟩ <;> rcases hbc with h2 | ⟨e2, h2⟩
  · exact Or.inl (h1.trans h2)
  · exact Or.inl (e2 ▸ h1)
  · exact Or.inl (e1 ▸ h2)
  · exact Or.inr ⟨e1.trans e2, h1.trans h2⟩

theorem Cq.nlt_asymm {a b : Cq} (hab : a.nlt b) : ¬ b.nlt a := fun hba =>
  Cq.nlt_irrefl a (Cq.nlt_trans hab hba)

theorem Cq.nlt_or_eq_of_not_nlt {a b : Cq} (h : ¬ a.nlt b) : b.nlt a ∨ b = a := by
  rcases lt_trichotomy a.re b.re with hre | hre | hre
  · exact absurd (Or.inl hre) h
  · rcases lt_trichotomy a.im b.im with him | him | him
    · exact absurd (Or.inr ⟨hre, him⟩) h
    · right
      cases a; cases b
      simp_all
    · exact Or.inl (Or.inr ⟨hre.symm, him⟩)
  · exact Or.inl (Or.inl hre)

theorem npArgmax_ne_none (v : Cq) (rest : List Cq) : npArgmax (v :: rest) ≠ none := by
  simp only [npArgmax]
  split
  · simp
  · split <;> simp

theorem npArgmax_eq_none {l : List Cq} : npArgmax l = none ↔ l = [] := by
  cases l with
  | nil => simp [npArgmax]
  | cons v rest => simp [npArgmax_ne_none v rest]

theorem npArgmax_spec :
    ∀ {l : List Cq} {i : ℕ} {m : Cq}, npArgmax l = some (i, m) →
      i < l.length ∧ l.getD i 0 = m ∧
      (∀ j, j < l.length → ¬ m.nlt (l.getD j 0)) ∧
      (∀ j, j < i → (l.getD j 0).nlt m) := by
  intro l
  induction l with
  | nil => intro i m h; simp [npArgmax] at h
  | cons v rest ih =>
    intro i m h
    simp only [npArgmax] at h
    rcases hrest : npArgmax rest with - | ⟨i0, m0⟩ <;> rw [hrest] at h <;>
      simp only [Option.some.injEq, Prod.mk.injEq] at h
    · have hnil : rest = [] := npArgmax_eq_none.mp hrest
      obtain ⟨rfl, rfl⟩ := h
      subst hnil
      refine ⟨by simp, rfl, ?_, by omega⟩
      intro j hj
      have hj0 : j = 0 := by simpa using hj
      subst hj0
      simpa using Cq.nlt_irrefl v
    · obtain ⟨hi0, hget0, hmax0, hfirst0⟩ := ih hrest
      by_cases hvm : v.nlt m0
      · rw [if_pos hvm] at h
        simp only [Option.some.injEq, Prod.mk.injEq] at h
        obtain ⟨rfl, rfl⟩ := h
        refine ⟨by simpa using hi0, by simpa using hget0, ?_, ?_⟩
        · intro j hj
          cases j with
          | zero => simpa using Cq.nlt_asymm hvm
          | succ j => simpa using hmax0 j (by simpa using hj)
        · intro j hj
          cases j with
          | zero => simpa using hvm
          | succ j => simpa using hfirst0 j (by omega)
      · rw [if_neg hvm] at h
        simp only [Option.some.injEq, Prod.mk.injEq] at h
        obtain ⟨rfl, rfl⟩ := h
        refine ⟨by simp, rfl, ?_, by omega⟩
        intro j hj
        cases j with
        | zero => simpa using Cq.nlt_irrefl v
        | succ j =>
          simp only [List.getD_cons_succ]
          intro hc
          have hj' : j < rest.length := by simpa using hj
          rcases Cq.nlt_or_eq_of_not_nlt hvm with hmv | hmv
          · exact hmax0 j hj' (Cq.nlt_trans hmv hc)
          · exact hmax0 j hj' (hmv ▸ hc)

/-! The arithmetic of `ℚ` in Batteries is sealed behind `@[irreducible]`
markers for elaboration performance; concrete evaluations below (`decide`,
`rfl`) need the definitions visible. -/

attribute [local semireducible] Rat.mul Rat.inv Rat.add Rat.sub

theorem peakSearch_spec {w : List Cq} (h : w ≠ []) :
    (peakSearch w).1 < w.length ∧ w.getD (peakSearch w).1 0 = (peakSearch w).2 ∧
    (∀ j, j < w.length → ¬ (peakSearch w).2.nlt (w.getD j 0)) ∧
    (∀ j, j < (peakSearch w).1 → (w.getD j 0).nlt (peakSearch w).2) := by
  rcases hw : npArgmax w with - | ⟨i, m⟩
  · exact absurd (npArgmax_eq_none.mp hw) h
  · have hs := npArgmax_spec hw
    simpa [peakSearch, hw] using hs

theorem waveform_calibration_isOk (cfg : Config) (ref : ℚ) (rfft : ℕ → ℕ → List Cq) :
    (waveform_calibration cfg ref rfft).isOk = true ↔
    pySlice (List.range cfg.numAdcSamples) (ref_bins cfg ref).1
      (ref_bins cfg ref).2 ≠ [] := by
  unfold waveform_calibration
  split
  · next hcond => simp_all [List.isEmpty_iff, Except.isOk, Except.toBool]
  · next hcond => simp_all [List.isEmpty_iff, Except.isOk, Except.toBool]

theorem fromfileInt16_length :
    ∀ bytes : List ℕ, (fromfileInt16 bytes).length = bytes.length / 2
  | [] => rfl
  | [_] => by simp [fromfileInt16]
  | _ :: _ :: rest => by
    simp only [fromfileInt16, List.length_cons, fromfileInt16_length rest]
    omega

theorem pySlice_getD {α : Type} (l : List α) (a b : ℤ) (ha : 0 ≤ a) (j : ℕ) (d : α)
    (hj : j < (pySlice l a b).length) :
    (pySlice l a b).getD j d = l.getD (a.toNat + j) d := by
  simp only [pySlice] at hj ⊢
  rw [if_neg (not_lt.mpr ha)] at hj ⊢
  simp only [List.length_take, List.length_drop, lt_min_iff] at hj
  obtain ⟨hj1, hj2⟩ := hj
  have hmin : (min a (l.length : ℤ)).toNat = a.toNat := by omega
  rw [hmin] at hj1 hj2 ⊢
  rw [List.getD_eq_getElem?_getD, List.getD_eq_getElem?_getD,
    List.getElem?_take, if_pos hj1, List.getElem?_drop]

theorem Cq.div_self {z : Cq} (h : z ≠ 0) : Cq.div z z = ⟨1, 0⟩ := by
  obtain ⟨a, b⟩ := z
  have hab : a * a + b * b ≠ 0 := by
    intro hc
    apply h
    have ha : a = 0 := by nlinarith [mul_self_nonneg a, mul_self_nonneg b]
    have hb : b = 0 := by nlinarith [mul_self_nonneg a, mul_self_nonneg b]
    rw [ha, hb]
    rfl
  unfold Cq.div Cq.normSq
  simp only [Cq.mk.injEq]
  constructor
  · field_simp
  · rw [show b * a - a * b = 0 by ring, zero_div]

/-- C1 (counterexample): the claim fails on the code.  With the window [1, 3)
of a nonempty reference window and the strictly descending real spectrum
`[5, 3, 1, 0]`, the calibrator selects index 0 — the WINDOW-RELATIVE position
of the maximum — which does not even lie in [1, 3), refuting the
absolute-index magnitude-argmax description. -/
theorem peak_claim_c1_false : ¬ PeakClaimC1 := fun h =>
  absurd (h cfgSmall 2 profileDesc 0 0 (by decide)).1 (by decide)

/-- C1 (amended): for every range profile, reference distance and antenna
pair whose reference-window slice is nonempty, the peak selected by the
waveform calibrator is characterized as: `peaks_idx` is the window-relative
index of the first occurrence of the maximum of the sliced complex values
under numpy's lexicographic (re, im) order — not a magnitude argmax at an
absolute index — and `peaks` is that maximum, the window element at the
selected relative index. -/
theorem waveform_peak_lex_max (cfg : Config) (ref : ℚ) (rfft : ℕ → ℕ → List Cq)
    (t r : ℕ) (h : wf_window cfg ref (rfft t r) ≠ []) :
    peaks_idx cfg ref rfft t r < (wf_window cfg ref (rfft t r)).length ∧
    (wf_window cfg ref (rfft t r)).getD (peaks_idx cfg ref rfft t r) 0 =
      peaks cfg ref rfft t r ∧
    (∀ j, j < (wf_window cfg ref (rfft t r)).length →
      ¬ (peaks cfg ref rfft t r).nlt ((wf_window cfg ref (rfft t r)).getD j 0)) ∧
    (∀ j, j < peaks_idx cfg ref rfft t r →
      ((wf_window cfg ref (rfft t r)).getD j 0).nlt (peaks cfg ref rfft t r)) :=
  peakSearch_spec h

/-- Witness for the C1 theorem at the window [1, 3) of `profileStep`. -/
theorem waveform_peak_lex_max_witness :
    wf_window cfgSmall 2 (profileStep 0 0) ≠ [] ∧
    (peaks_idx cfgSmall 2 profileStep 0 0 <
      (wf_window cfgSmall 2 (profileStep 0 0)).length ∧
    (wf_window cfgSmall 2 (profileStep 0 0)).getD
      (peaks_idx cfgSmall 2 profileStep 0 0) 0 = peaks cfgSmall 2 profileStep 0 0 ∧
    (∀ j, j < (wf_window cfgSmall 2 (profileStep 0 0)).length →
      ¬ (peaks cfgSmall 2 profileStep 0 0).nlt
        ((wf_window cfgSmall 2 (profileStep 0 0)).getD j 0)) ∧
    (∀ j, j < peaks_idx cfgSmall 2 profileStep 0 0 →
      ((wf_window cfgSmall 2 (profileStep 0 0)).getD j 0).nlt
        (peaks cfgSmall 2 profileStep 0 0))) :=
  ⟨by decide, waveform_peak_lex_max cfgSmall 2 profileStep 0 0 (by decide)⟩

/-- C2 (counterexample): the claim fails on the code.  On `profileStep` the
non-reference pair (0, 1) has peak exactly 0, yet the calibration returns
matrices instead of failing: the source has no zero-peak check. -/
theorem zero_peak_claim_c2_false : ¬ ZeroPeakClaimC2 := fun h =>
  absurd (h cfgSmall 2 profileStep 0 1 (by decide) (by decide) (by decide)
    (by decide)) (by decide)

/-- C2 (amended): a zero peak at an antenna pair does not make the waveform
calibration fail; whenever the window slice is nonempty, matrices are
returned, and the phase/amplitude entry of the zero-peak pair is the
propagated division of the reference peak by zero (non-finite in numpy,
the junk value `Cq.div _ 0` in this exact model).  No CalibrationError
path exists in the code. -/
theorem waveform_zero_peak_no_error (cfg : Config) (ref : ℚ)
    (rfft : ℕ → ℕ → List Cq) (t r : ℕ)
    (hne : pySlice (List.range cfg.numAdcSamples) (ref_bins cfg ref).1
      (ref_bins cfg ref).2 ≠ [])
    (hzero : peaks cfg ref rfft t r = 0) :
    waveform_calibration cfg ref rfft =
      .ok (freq_calib_coeff cfg ref rfft, phase_calib cfg ref rfft) ∧
    phase_calib cfg ref rfft t r = Cq.div (peaks cfg ref rfft 0 0) 0 := by
  constructor
  · unfold waveform_calibration
    rw [if_neg (by simpa [List.isEmpty_iff] using hne)]
  · unfold phase_calib
    rw [hzero]

/-- Witness for the C2 theorem at the zero-peak pair (0, 1) of
`profileStep`. -/
theorem waveform_zero_peak_no_error_witness :
    pySlice (List.range cfgSmall.numAdcSamples) (ref_bins cfgSmall 2).1
      (ref_bins cfgSmall 2).2 ≠ [] ∧
    peaks cfgSmall 2 profileStep 0 1 = 0 ∧
    (waveform_calibration cfgSmall 2 profileStep =
      .ok (freq_calib_coeff cfgSmall 2 profileStep, phase_calib cfgSmall 2 profileStep) ∧
    phase_calib cfgSmall 2 profileStep 0 1 =
      Cq.div (peaks cfgSmall 2 profileStep 0 0) 0) :=
  ⟨by decide, by decide,
    waveform_zero_peak_no_error cfgSmall 2 profileStep 0 1 (by decide) (by decide)⟩

/-- C3 (counterexample): the claim fails on the code.  `cfgWide` with
ref = 3/2 m yields the window [1, 6) on a 4-sample axis — out of bounds —
yet the calibration proceeds with the Python-clamped slice [1, 4) and
returns matrices; no ConfigError is raised. -/
theorem window_bounds_claim_c3_false : ¬ WindowBoundsClaimC3 := fun h =>
  absurd (h cfgWide (3 / 2) profileOnes4 (by decide)) (by decide)

/-- C3 (amended): the code never validates the computed window against
`0 ≤ lo < hi ≤ nsample`.  Even when those bounds are violated, as long as the
Python-clamped slice of the sample axis is nonempty the calibration proceeds
with that clamped window and returns matrices; there is no ConfigError. -/
theorem waveform_no_bounds_check (cfg : Config) (ref : ℚ)
    (rfft : ℕ → ℕ → List Cq)
    (_hbad : ¬(0 ≤ (ref_bins cfg ref).1 ∧
      (ref_bins cfg ref).1 < (ref_bins cfg ref).2 ∧
      (ref_bins cfg ref).2 ≤ (cfg.numAdcSamples : ℤ)))
    (hne : pySlice (List.range cfg.numAdcSamples) (ref_bins cfg ref).1
      (ref_bins cfg ref).2 ≠ []) :
    waveform_calibration cfg ref rfft =
      .ok (freq_calib_coeff cfg ref rfft, phase_calib cfg ref rfft) := by
  unfold waveform_calibration
  rw [if_neg (by simpa [List.isEmpty_iff] using hne)]

/-- Witness for the C3 theorem at the out-of-bounds window [1, 6) on a
4-sample axis. -/
theorem waveform_no_bounds_check_witness :
    ¬(0 ≤ (ref_bins cfgWide (3 / 2)).1 ∧
      (ref_bins cfgWide (3 / 2)).1 < (ref_bins cfgWide (3 / 2)).2 ∧
      (ref_bins cfgWide (3 / 2)).2 ≤ (cfgWide.numAdcSamples : ℤ)) ∧
    pySlice (List.range cfgWide.numAdcSamples) (ref_bins cfgWide (3 / 2)).1
      (ref_bins cfgWide (3 / 2)).2 ≠ [] ∧
    waveform_calibration cfgWide (3 / 2) profileOnes4 =
      .ok (freq_calib_coeff cfgWide (3 / 2) profileOnes4,
        phase_calib cfgWide (3 / 2) profileOnes4) :=
  ⟨by decide, by decide,
    waveform_no_bounds_check cfgWide (3 / 2) profileOnes4 (by decide) (by decide)⟩

/-- C9 (counterexample): the claim fails on the code.  `cfgNegLow` with
ref = 1/4 m has (ref - 1)/resolution = -3/2 < 0, giving the window [-1, 2);
Python slicing turns it into the empty slice [7, 2) of the 8-sample axis, on
which numpy's argmax/max reductions raise — the calibration fails rather than
returning a result. -/
theorem negative_window_claim_c9_false : ¬ NegativeWindowClaimC9 := fun h =>
  absurd (h cfgNegLow (1 / 4) profileOnes8 (by decide)) (by decide)

/-- C9 (amended): when the computed low bound `(ref - 1)/resolution` is
negative, `int()` truncation makes the stored low bound `lo ≤ 0` (0 for
values above -1, negative below); no window error is ever reported: the
calibration returns a result exactly when the Python-clamped slice of the
sample axis is nonempty (an empty slice instead makes the numpy reduction
itself raise), and for `lo < 0` any slice taken is an initial run of the
elements from position `length + lo` on — the end of the sample axis. -/
theorem waveform_negative_low_bound (cfg : Config) (ref : ℚ)
    (rfft : ℕ → ℕ → List Cq)
    (hneg : (ref - 1) / rres cfg < 0) :
    (ref_bins cfg ref).1 ≤ 0 ∧
    ((waveform_calibration cfg ref rfft).isOk = true ↔
      pySlice (List.range cfg.numAdcSamples) (ref_bins cfg ref).1
        (ref_bins cfg ref).2 ≠ []) ∧
    ((ref_bins cfg ref).1 < 0 → ∀ l : List Cq, ∃ m : ℕ,
      pySlice l (ref_bins cfg ref).1 (ref_bins cfg ref).2 =
        (l.drop ((ref_bins cfg ref).1 + (l.length : ℤ)).toNat).take m) := by
  refine ⟨?_, waveform_calibration_isOk cfg ref rfft, ?_⟩
  · simp only [ref_bins, qtrunc]
    rw [if_pos hneg]
    have h0 : (0 : ℤ) ≤ ⌊-((ref - 1) / rres cfg)⌋ :=
      Int.floor_nonneg.mpr (by linarith)
    omega
  · intro hlt l
    refine ⟨(if (ref_bins cfg ref).2 < 0 then (ref_bins cfg ref).2 + (l.length : ℤ)
        else min ((ref_bins cfg ref).2) (l.length : ℤ)).toNat
        - ((ref_bins cfg ref).1 + (l.length : ℤ)).toNat, ?_⟩
    simp only [pySlice]
    rw [if_pos hlt]

/-- Witness for the C9 theorem: `cfgWrap` with ref = 1/2 m has a negative
low bound (lo = -2) and a nonempty wrapped slice [2, 4) of the 4-sample
axis, so a result is returned. -/
theorem waveform_negative_low_bound_witness :
    (1 / 2 - 1 : ℚ) / rres cfgWrap < 0 ∧
    ((ref_bins cfgWrap (1 / 2)).1 ≤ 0 ∧
    ((waveform_calibration cfgWrap (1 / 2) profileOnes4).isOk = true ↔
      pySlice (List.range cfgWrap.numAdcSamples) (ref_bins cfgWrap (1 / 2)).1
        (ref_bins cfgWrap (1 / 2)).2 ≠ []) ∧
    ((ref_bins cfgWrap (1 / 2)).1 < 0 → ∀ l : List Cq, ∃ m : ℕ,
      pySlice l (ref_bins cfgWrap (1 / 2)).1 (ref_bins cfgWrap (1 / 2)).2 =
        (l.drop ((ref_bins cfgWrap (1 / 2)).1 + (l.length : ℤ)).toNat).take m)) :=
  ⟨by decide, waveform_negative_low_bound cfgWrap (1 / 2) profileOnes4 (by decide)⟩

/-- C7 (counterexample): the claim fails on the code.  On the all-zero range
profile the calibration still returns matrices (no failure path), and the
reference antenna's phase/amplitude entry is the division 0 / 0 — non-finite
in numpy, the junk value 0 in this model — not the exact constant (1, 0). -/
theorem reference_entry_claim_c7_false : ¬ ReferenceEntryClaimC7 := fun h =>
  absurd (h cfgSmall 2 profileZero
    (freq_calib_coeff cfgSmall 2 profileZero, phase_calib cfgSmall 2 profileZero)
    (by rfl)).1 (by decide)

/-- C7 (amended): whenever the waveform calibration returns matrices AND the
reference peak is nonzero, the reference antenna's phase/amplitude entry is
exactly (1, 0) and its frequency entry is exactly 0. -/
theorem waveform_reference_entries (cfg : Config) (ref : ℚ)
    (rfft : ℕ → ℕ → List Cq) (out : (ℕ → ℕ → ℚ) × (ℕ → ℕ → Cq))
    (hok : waveform_calibration cfg ref rfft = .ok out)
    (hnz : peaks cfg ref rfft 0 0 ≠ 0) :
    out.2 0 0 = (⟨1, 0⟩ : Cq) ∧ freq_calib cfg ref rfft 0 0 = 0 := by
  have hout : out = (freq_calib_coeff cfg ref rfft, phase_calib cfg ref rfft) := by
    unfold waveform_calibration at hok
    split at hok
    · cases hok
    · exact (Except.ok.inj hok).symm
  subst hout
  refine ⟨?_, ?_⟩
  · show phase_calib cfg ref rfft 0 0 = (⟨1, 0⟩ : Cq)
    unfold phase_calib
    exact Cq.div_self hnz
  · unfold freq_calib freq_calib_coeff
    simp

/-- Witness for the C7 theorem on a profile with nonzero reference peak
⟨2, 1⟩. -/
theorem waveform_reference_entries_witness :
    waveform_calibration cfgSmall 2 profilePeak =
      .ok (freq_calib_coeff cfgSmall 2 profilePeak,
        phase_calib cfgSmall 2 profilePeak) ∧
    peaks cfgSmall 2 profilePeak 0 0 ≠ 0 ∧
    (phase_calib cfgSmall 2 profilePeak 0 0 = (⟨1, 0⟩ : Cq) ∧
     freq_calib cfgSmall 2 profilePeak 0 0 = 0) :=
  ⟨by rfl, by decide,
    waveform_reference_entries cfgSmall 2 profilePeak
      (freq_calib_coeff cfgSmall 2 profilePeak, phase_calib cfgSmall 2 profilePeak)
      (by rfl) (by decide)⟩

/-- C8: on every successful run, the frequency-calibration entry equals
2π · (idx(tx,rx) − idx(0,0)) / ref · (sampling_frequency / frequency_slope),
with the sampling frequency and slope converted to Hz and Hz/s from the
configuration's ksps and MHz/µs fields, and idx the selected peak bin
indices. -/
theorem freq_calib_formula (cfg : Config) (ref : ℚ) (rfft : ℕ → ℕ → List Cq)
    (_hok : (waveform_calibration cfg ref rfft).isOk = true) (t r : ℕ) :
    freq_calib cfg ref rfft t r =
      2 * Real.pi *
        (((peaks_idx cfg ref rfft t r : ℝ) - (peaks_idx cfg ref rfft 0 0 : ℝ))
          / (ref : ℝ)) *
        ((cfg.adcSamplingFrequency_ksps : ℝ) * 10 ^ 3 /
          ((cfg.frequencySlope_Mhz_us : ℝ) * 10 ^ 12)) := by
  unfold freq_calib freq_calib_coeff fsample fslope
  push_cast
  ring

/-- Witness for the C8 theorem on a successful run. -/
theorem freq_calib_formula_witness :
    (waveform_calibration cfgSmall 2 profileStep).isOk = true ∧
    freq_calib cfgSmall 2 profileStep 0 1 =
      2 * Real.pi *
        (((peaks_idx cfgSmall 2 profileStep 0 1 : ℝ) -
          (peaks_idx cfgSmall 2 profileStep 0 0 : ℝ)) / ((2 : ℚ) : ℝ)) *
        ((cfgSmall.adcSamplingFrequency_ksps : ℝ) * 10 ^ 3 /
          ((cfgSmall.frequencySlope_Mhz_us : ℝ) * 10 ^ 12)) :=
  ⟨by decide, freq_calib_formula cfgSmall 2 profileStep (by decide) 0 1⟩

/-- C10: on windows that lie within bounds (0 ≤ lo), the selected peak value
sits at the absolute sample index lo + idx of the spectrum, and the
frequency-calibration coefficient computed from the window-relative indices
equals the one computed from the corresponding absolute indices: the uniform
shift lo cancels in the difference idx(tx,rx) − idx(0,0). -/
theorem freq_calib_shift_invariant (cfg : Config) (ref : ℚ)
    (rfft : ℕ → ℕ → List Cq) (t r : ℕ)
    (hlo : 0 ≤ (ref_bins cfg ref).1)
    (hne : wf_window cfg ref (rfft t r) ≠ []) :
    peaks cfg ref rfft t r =
      (rfft t r).getD ((ref_bins cfg ref).1.toNat + peaks_idx cfg ref rfft t r) 0 ∧
    freq_calib_coeff cfg ref rfft t r = freq_calib_coeff_abs cfg ref rfft t r := by
  constructor
  · unfold peaks peaks_idx
    obtain ⟨hidx, hval, -, -⟩ := peakSearch_spec hne
    rw [← hval]
    exact pySlice_getD (rfft t r) _ _ hlo _ 0 hidx
  · unfold freq_calib_coeff freq_calib_coeff_abs
    push_cast
    ring

/-- Witness for the C10 theorem at the in-bounds window [1, 3). -/
theorem freq_calib_shift_invariant_witness :
    0 ≤ (ref_bins cfgSmall 2).1 ∧ wf_window cfgSmall 2 (profileStep 0 1) ≠ [] ∧
    (peaks cfgSmall 2 profileStep 0 1 =
      (profileStep 0 1).getD
        ((ref_bins cfgSmall 2).1.toNat + peaks_idx cfgSmall 2 profileStep 0 1) 0 ∧
    freq_calib_coeff cfgSmall 2 profileStep 0 1 =
      freq_calib_coeff_abs cfgSmall 2 profileStep 0 1) :=
  ⟨by decide, by decide,
    freq_calib_shift_invariant cfgSmall 2 profileStep 0 1 (by decide) (by decide)⟩

/-- C4 (counterexample): the claim fails on the code.  A 5-byte buffer for
dimensions 1×1×1×1 (expected 4 bytes = 2 int16 elements) still loads:
`np.fromfile` silently drops the trailing odd byte, yielding exactly the 2
expected elements, so no FormatError is raised although the length differs
from ntx·nrx·nchirp·nsample·2·2. -/
theorem buffer_length_claim_c4_false : ¬ BufferLengthClaimC4 := fun h =>
  absurd ((h 1 1 1 1 [0, 0, 0, 0, 0] (by decide) (by decide) (by decide)
    (by decide)).mp (by decide)) (by decide)

/-- C4 (amended): frame loading succeeds iff the buffer holds exactly
`ntx · nrx · nchirp · nsample · 2` COMPLETE two-byte elements, i.e. iff
⌊length / 2⌋ equals that element count — both the even length 2·P and the odd
length 2·P + 1 succeed; every other length fails with the reshape error. -/
theorem loadFrame_length_iff (ntx nrx nc ns : ℕ) (bytes : List ℕ)
    (_h1 : 0 < ntx) (_h2 : 0 < nrx) (_h3 : 0 < nc) (_h4 : 0 < ns) :
    (loadFrame bytes ntx nrx nc ns).isSome = true ↔
      bytes.length / 2 = ntx * nrx * nc * ns * 2 := by
  unfold loadFrame reshape5
  split
  · next h => simp [← fromfileInt16_length, h]
  · next h => simp [← fromfileInt16_length, h]

/-- Witness for the C4 theorem on a well-sized 4-byte buffer for dimensions
1×1×1×1. -/
theorem loadFrame_length_iff_witness :
    0 < 1 ∧
    ((loadFrame [0, 0, 0, 0] 1 1 1 1).isSome = true ↔
      [0, 0, 0, 0].length / 2 = 1 * 1 * 1 * 1 * 2) :=
  ⟨by decide,
    loadFrame_length_iff 1 1 1 1 [0, 0, 0, 0] (by decide) (by decide) (by decide)
      (by decide)⟩

/-- C5 (counterexample): the claim fails on the code.  With `cfgRes2`
(resolution 2 m) and ref = 1/2 m, `(ref - 1)/resolution = -1/4`: its floor is
-1 but Python's `int()` truncates toward zero, so the code stores lo = 0, not
the floor. -/
theorem window_floor_claim_c5_false : ¬ WindowFloorClaimC5 := fun h =>
  absurd (h cfgRes2 (1 / 2) (by decide) (by decide) (by decide)) (by decide)

/-- C5 (amended): for every configuration with positive slope, sampling
frequency and nsample, and every reference distance, the window bounds equal
the TRUNCATION toward zero (Python `int()`) of `(ref ∓ 1) / resolution`,
where resolution = (sampling_frequency · c / (2 · frequency_slope)) / nsample
with c = 299792458 m/s; truncation agrees with the claimed floor only on
nonnegative quotients. -/
theorem ref_bins_eq_trunc_spec (cfg : Config) (ref : ℚ)
    (_h1 : 0 < cfg.frequencySlope_Mhz_us) (_h2 : 0 < cfg.adcSamplingFrequency_ksps)
    (_h3 : 0 < cfg.numAdcSamples) :
    ref_bins cfg ref = refWindowTruncSpec cfg ref := by
  unfold ref_bins refWindowTruncSpec rres rmax fsample fslope speedOfLight
    resolutionSpec
  rfl

/-- Witness for the C5 theorem at `cfgRes2`, ref = 1/2 m. -/
theorem ref_bins_eq_trunc_spec_witness :
    0 < cfgRes2.frequencySlope_Mhz_us ∧ 0 < cfgRes2.adcSamplingFrequency_ksps ∧
    0 < cfgRes2.numAdcSamples ∧
    ref_bins cfgRes2 (1 / 2) = refWindowTruncSpec cfgRes2 (1 / 2) :=
  ⟨by decide, by decide, by decide,
    ref_bins_eq_trunc_spec cfgRes2 (1 / 2) (by decide) (by decide) (by decide)⟩

/-- C6: every coupling-matrix entry is the arithmetic mean of the raw I
samples (component 0) and of the raw Q samples (component 1) of its antenna
pair, taken over all nchirp · nsample (chirp, sample) positions; no peak
search is involved and no other axis is averaged. -/
theorem coupling_mean (bytes : List ℕ) (ntx nrx nc ns : ℕ) (f : ℕ → ℕ → ℕ → ℚ)
    (hf : coupling_calibration bytes ntx nrx nc ns = some f) (t r : ℕ) :
    f t r 0 = (∑ p ∈ Finset.range nc ×ˢ Finset.range ns,
        ((frameGet nrx nc ns (fromfileInt16 bytes) t r p.1 p.2 0 : ℚ)))
      / ((nc * ns : ℕ) : ℚ) ∧
    f t r 1 = (∑ p ∈ Finset.range nc ×ˢ Finset.range ns,
        ((frameGet nrx nc ns (fromfileInt16 bytes) t r p.1 p.2 1 : ℚ)))
      / ((nc * ns : ℕ) : ℚ) := by
  unfold coupling_calibration loadFrame reshape5 at hf
  split at hf
  · simp only [Option.map_some'] at hf
    obtain rfl := Option.some.inj hf
    constructor <;>
      · rw [Finset.sum_product]
        push_cast
        rfl
  · simp at hf

/-- Witness for the C6 theorem on the spec's §8 hand-computed 1×1×2×2
frame. -/
theorem coupling_mean_witness :
    coupling_calibration couplingBytes 1 1 2 2 = some couplingF ∧
    (couplingF 0 0 0 = (∑ p ∈ Finset.range 2 ×ˢ Finset.range 2,
        ((frameGet 1 2 2 (fromfileInt16 couplingBytes) 0 0 p.1 p.2 0 : ℚ)))
      / ((2 * 2 : ℕ) : ℚ) ∧
     couplingF 0 0 1 = (∑ p ∈ Finset.range 2 ×ˢ Finset.range 2,
        ((frameGet 1 2 2 (fromfileInt16 couplingBytes) 0 0 p.1 p.2 1 : ℚ)))
      / ((2 * 2 : ℕ) : ℚ)) :=
  ⟨by rfl, coupling_mean couplingBytes 1 1 2 2 couplingF (by rfl) 0 0⟩

end MmwaveCalibrate
